import Mathlib

/-!
Shallow embedding of the Tello-Renewal core: the due-date cache, the
execution-status cache (src/tello_renewal/utils/cache.py) and the
element-interaction layer (src/tello_renewal/web/pages/base.py,
dashboard.py).  File contents are modelled as `Option (List Char)`
(`none` = the file does not exist); stateful operations return their
result together with the post file state, so that self-healing deletion
of a corrupt record is observable as a post state of `none`.
-/

/-- ASCII digit character `0`..`9`; used to model zero-padded decimal
formatting as done by `strftime` / `isoformat`. -/
def digitChar (n : Nat) : Char := Char.ofNat (48 + n)

/-- ASCII digit test, modelling the digit class used by the Python date
parsers on the ASCII inputs this program writes and reads. -/
def isDigitCh (c : Char) : Bool := 48 ≤ c.toNat && c.toNat ≤ 57

/-- Numeric value of an ASCII digit character. -/
def charVal (c : Char) : Nat := c.toNat - 48

/-- Whitespace set of Python `str.strip` (ASCII subset). -/
def isSpaceCh (c : Char) : Bool :=
  c == ' ' || c == '\t' || c == '\n' || c == '\r' || c == '\x0b' || c == '\x0c'

/-- Python `str.strip()`: drop leading and trailing whitespace. -/
def stripChars (s : List Char) : List Char :=
  ((s.dropWhile isSpaceCh).reverse.dropWhile isSpaceCh).reverse

/-- Python `str.split(sep)` for a one-character separator: `""` splits to
`[""]`, a trailing separator yields a trailing empty segment. -/
def splitOnCh (sep : Char) : List Char → List (List Char)
  | [] => [[]]
  | a :: rest =>
    match splitOnCh sep rest with
    | [] => [[a]]
    | h :: t => if a == sep then [] :: h :: t else (a :: h) :: t

/-- Calendar date, as Python `datetime.date` (valid dates have
`1 ≤ year ≤ 9999` and a day fitting the month). -/
structure Date where
  year : Nat
  month : Nat
  day : Nat
deriving DecidableEq, Repr

/-- Gregorian leap-year rule (Python `calendar.isleap`). -/
def isLeap (y : Nat) : Bool := y % 4 == 0 && (y % 100 != 0 || y % 400 == 0)

/-- Number of days in a month of a given year. -/
def daysInMonth (y m : Nat) : Nat :=
  if m == 2 then (if isLeap y then 29 else 28)
  else if m == 4 || m == 6 || m == 9 || m == 11 then 30
  else 31

/-- Days in all years strictly before year `y` (proleptic Gregorian). -/
def daysBeforeYear (y : Nat) : Nat :=
  365 * (y - 1) + (y - 1) / 4 - (y - 1) / 100 + (y - 1) / 400

/-- Days in the months of year `y` strictly before month `m`. -/
def daysBeforeMonth (y m : Nat) : Nat :=
  ((List.range (m - 1)).map (fun i => daysInMonth y (i + 1))).sum

/-- Python `date.toordinal`: proleptic Gregorian day number, 0001-01-01 ↦ 1. -/
def toOrdinal (d : Date) : Nat :=
  daysBeforeYear d.year + daysBeforeMonth d.year d.month + d.day

/-- Python date subtraction `(a - b).days`. -/
def dateDiff (a b : Date) : Int := (toOrdinal a : Int) - (toOrdinal b : Int)

/-- Validity of a (year, month, day) triple, as enforced by the
`datetime.date` constructor. -/
def validYMD (y m d : Nat) : Bool :=
  decide (1 ≤ y ∧ y ≤ 9999 ∧ 1 ≤ m ∧ m ≤ 12 ∧ 1 ≤ d ∧ d ≤ daysInMonth y m)

/-- The `datetime.date` constructor: a date when valid, failure otherwise. -/
def mkDate (y m d : Nat) : Option Date :=
  if validYMD y m d then some ⟨y, m, d⟩ else none

/-- Zero-padded four-digit decimal rendering (exact for `n ≤ 9999`, the
range `datetime.date` guarantees for years), as `strftime` emits for `Y`. -/
def format4 (n : Nat) : List Char :=
  [digitChar (n / 1000 % 10), digitChar (n / 100 % 10),
   digitChar (n / 10 % 10), digitChar (n % 10)]

/-- Zero-padded two-digit decimal rendering (exact for `n ≤ 99`), as
`strftime` emits for months, days and time fields. -/
def format2 (n : Nat) : List Char := [digitChar (n / 10 % 10), digitChar (n % 10)]

/-- The cache's date rendering `strftime` with format `Y-m-d`. -/
def formatDate (d : Date) : List Char :=
  format4 d.year ++ '-' :: format2 d.month ++ '-' :: format2 d.day

/-- Decimal value of a digit string (callers check digit-ness first). -/
def parseNatCore (s : List Char) : Nat := s.foldl (fun a c => 10 * a + charVal c) 0

/-- Parse a run of `lo`..`hi` ASCII digits, as the field patterns of the
Python date parsers admit. -/
def parseFixed (lo hi : Nat) (s : List Char) : Option Nat :=
  if decide (lo ≤ s.length) && decide (s.length ≤ hi) && s.all isDigitCh
  then some (parseNatCore s) else none

/-- Models `datetime.strptime(s, "Y-m-d").date()` with dashes between the
fields: a four-digit year, one-or-two-digit month and day separated by
dashes, then validation by the `date` constructor (ASCII digits). -/
def parseDate (s : List Char) : Option Date :=
  match splitOnCh '-' s with
  | [ys, ms, ds] =>
    match parseFixed 4 4 ys, parseFixed 1 2 ms, parseFixed 1 2 ds with
    | some y, some m, some d => mkDate y m d
    | _, _, _ => none
  | _ => none

/-- `DueDateCache.read_cached_date` over the file state (`none` = no file).
Returns the result and the post file state; the `ValueError` branch of the
source deletes the corrupt file, so its post state is `none`.  The `OSError`
branch (unreadable file) is outside this model, which assumes reads succeed. -/
def read_cached_date (s : Option (List Char)) : Option Date × Option (List Char) :=
  match s with
  | none => (none, none)
  | some content =>
    let t := stripChars content
    if t.isEmpty then (none, some content)
    else
      match parseDate t with
      | some d => (some d, some content)
      | none => (none, none)

/-- `DueDateCache.write_cached_date`: on I/O success writes the `Y-m-d`
rendering and returns `true`; on I/O failure (the `OSError` branch, modelled
by the `ioOk` flag) leaves the state unchanged and returns `false`. -/
def write_cached_date (prev : Option (List Char)) (ioOk : Bool) (d : Date) :
    Bool × Option (List Char) :=
  if ioOk then (true, some (formatDate d)) else (false, prev)

/-- `DueDateCache.is_within_range`. -/
def is_within_range (s : Option (List Char)) (current : Date) (rangeDays : Int) : Bool :=
  match (read_cached_date s).1 with
  | none => false
  | some cached => decide (|dateDiff current cached| ≤ rangeDays)

/-- `DueDateCache.should_skip_renewal`: no cache file at all means never
skip; otherwise defer to `is_within_range`. -/
def should_skip_renewal (s : Option (List Char)) (current : Date) (rangeDays : Int) : Bool :=
  match s with
  | none => false
  | some _ => is_within_range s current rangeDays

/-- Timestamp, as Python `datetime.datetime` (date plus time of day). -/
structure DateTime where
  date : Date
  hour : Nat
  minute : Nat
  second : Nat
  microsecond : Nat
deriving DecidableEq, Repr

/-- Validity of a time of day, as the `datetime` constructor enforces. -/
def validTime (h mi s : Nat) : Bool := decide (h ≤ 23 ∧ mi ≤ 59 ∧ s ≤ 59)

/-- Date part of `datetime.fromisoformat`: fixed-width `YYYY-MM-DD`. -/
def parseDateISO (s : List Char) : Option Date :=
  match splitOnCh '-' s with
  | [ys, ms, ds] =>
    match parseFixed 4 4 ys, parseFixed 2 2 ms, parseFixed 2 2 ds with
    | some y, some m, some d => mkDate y m d
    | _, _, _ => none
  | _ => none

/-- Fractional-second field of an ISO timestamp: one to six digits,
scaled to microseconds. -/
def parseFrac (s : List Char) : Option Nat :=
  if decide (1 ≤ s.length) && decide (s.length ≤ 6) && s.all isDigitCh
  then some (parseNatCore s * 10 ^ (6 - s.length)) else none

/-- Time part of `datetime.fromisoformat`: `HH:MM:SS` with an optional
fractional-second suffix. -/
def parseTimeISO (s : List Char) : Option (Nat × Nat × Nat × Nat) :=
  match splitOnCh ':' s with
  | [hs, ms, rest] =>
    let secFrac : Option (Nat × Nat) :=
      match splitOnCh '.' rest with
      | [ss] => (parseFixed 2 2 ss).map (fun x => (x, 0))
      | [ss, fs] =>
        match parseFixed 2 2 ss, parseFrac fs with
        | some x, some f => some (x, f)
        | _, _ => none
      | _ => none
    match parseFixed 2 2 hs, parseFixed 2 2 ms, secFrac with
    | some h, some mi, some (se, f) =>
      if validTime h mi se then some (h, mi, se, f) else none
    | _, _, _ => none
  | _ => none

/-- Models `datetime.fromisoformat` on the subset `datetime.isoformat`
produces: `YYYY-MM-DD`, optionally followed by `T` or a space and
`HH:MM:SS` with an optional fractional part; anything else fails. -/
def parseDateTime (s : List Char) : Option DateTime :=
  if s.length == 10 then (parseDateISO s).map (fun d => ⟨d, 0, 0, 0, 0⟩)
  else
    match s.drop 10 with
    | c :: rest =>
      if c == 'T' || c == ' ' then
        match parseDateISO (s.take 10), parseTimeISO rest with
        | some d, some (h, mi, se, f) => some ⟨d, h, mi, se, f⟩
        | _, _ => none
      else none
    | [] => none

/-- Zero-padded six-digit rendering (exact for `n ≤ 999999`), used for the
microsecond field of `isoformat`. -/
def format6 (n : Nat) : List Char :=
  [digitChar (n / 100000 % 10), digitChar (n / 10000 % 10), digitChar (n / 1000 % 10),
   digitChar (n / 100 % 10), digitChar (n / 10 % 10), digitChar (n % 10)]

/-- `datetime.isoformat()`: the `T`-separated rendering, with the
microsecond field only when it is nonzero. -/
def formatDateTime (t : DateTime) : List Char :=
  formatDate t.date ++ 'T' :: format2 t.hour ++ ':' :: format2 t.minute
    ++ ':' :: format2 t.second
    ++ (if t.microsecond == 0 then [] else '.' :: format6 t.microsecond)

/-- Status token `ExecutionStatus.SUCCESS`. -/
def sSuccess : List Char := "success".toList

/-- Status token `ExecutionStatus.FAILED`. -/
def sFailed : List Char := "failed".toList

/-- Status token `ExecutionStatus.NOT_DUE`. -/
def sNotDue : List Char := "not_due".toList

/-- Status token `ExecutionStatus.SKIPPED`. -/
def sSkipped : List Char := "skipped".toList

/-- The `valid_statuses` set of `read_execution_status`. -/
def validStatuses : List (List Char) := [sSuccess, sFailed, sNotDue, sSkipped]

/-- `ExecutionStatusCache.read_execution_status` over the file state.
Returns the result and the post file state: an unparsable timestamp takes
the `ValueError` branch, which deletes the file (post state `none`); a
wrong line count, empty fields or an unrecognized status token return
absence with the file left in place. -/
def read_execution_status (s : Option (List Char)) :
    Option (DateTime × List Char) × Option (List Char) :=
  match s with
  | none => (none, none)
  | some content =>
    match splitOnCh '\n' (stripChars content) with
    | [l0, l1] =>
      if (stripChars l0).isEmpty || (stripChars l1).isEmpty then (none, some content)
      else
        match parseDateTime (stripChars l0) with
        | none => (none, none)
        | some ts =>
          if validStatuses.contains (stripChars l1) then
            (some (ts, stripChars l1), some content)
          else (none, some content)
    | _ => (none, some content)

/-- `ExecutionStatusCache.write_execution_status`: on I/O success writes
the ISO timestamp, a newline and the raw status token (not validated on
write) and returns `true`; on I/O failure leaves the state unchanged. -/
def write_execution_status (prev : Option (List Char)) (ioOk : Bool)
    (status : List Char) (ts : DateTime) : Bool × Option (List Char) :=
  if ioOk then (true, some (formatDateTime ts ++ '\n' :: status)) else (false, prev)

/-- Decision tail of `should_retry_renewal` on a freshly read status
record (the straight-line code after `read_execution_status` returned a
record): stale records, then the per-token returns, then the fail-open
default. -/
def statusDecision (today : Date) (ts : DateTime) (status : List Char) : Bool :=
  if ts.date ≠ today then true
  else if status = sSuccess then false
  else if status = sFailed ∨ status = sNotDue then true
  else if status = sSkipped then true
  else true

/-- `ExecutionStatusCache.should_retry_renewal`; the wall clock read
`date.today()` is passed in as `today`. -/
def should_retry_renewal (s : Option (List Char)) (today renewalDate : Date)
    (daysBefore : Int) : Bool :=
  let daysUntil := dateDiff renewalDate today
  if ¬ (0 ≤ daysUntil ∧ daysUntil ≤ daysBefore) then true
  else
    match (read_execution_status s).1 with
    | none => true
    | some (ts, st) => statusDecision today ts st

/-- Variant of `statusDecision` whose fail-open default returns `false`
instead of `true`; used to express that the default branch is unreachable. -/
def statusDecisionStrict (today : Date) (ts : DateTime) (status : List Char) : Bool :=
  if ts.date ≠ today then true
  else if status = sSuccess then false
  else if status = sFailed ∨ status = sNotDue then true
  else if status = sSkipped then true
  else false

/-- `should_retry_renewal` with the fail-open default branch removed
(replaced by `false`). -/
def should_retry_renewal_strict (s : Option (List Char)) (today renewalDate : Date)
    (daysBefore : Int) : Bool :=
  let daysUntil := dateDiff renewalDate today
  if ¬ (0 ≤ daysUntil ∧ daysUntil ≤ daysBefore) then true
  else
    match (read_execution_status s).1 with
    | none => true
    | some (ts, st) => statusDecisionStrict today ts st

/-- One locator alternative: strategy (`by`), selector value, description. -/
structure LocatorBase where
  by_ : String
  value : String
  description : String
deriving DecidableEq, Repr

/-- Modelled from the spec: `Locator` (web/elements/locators.py is not in
src/): a primary (strategy, selector value, human-readable description)
plus an ordered sequence of fallback locators of the same shape, tried in
order; the element layer consults only the fallbacks' own primary fields. -/
structure Locator where
  by_ : String
  value : String
  description : String
  fallbacks : List LocatorBase
deriving DecidableEq, Repr

/-- Observable browser-layer actions, in program order. -/
inductive BAction where
  | locate (by_ : String) (value : String) (timeout : Int)
  | nativeClick
  | jsClick
  | scroll
  | sleep (seconds : Nat)
deriving DecidableEq, Repr

/-- Errors of the element layer, by the f-string template they are raised
with: `notFound` is the wait_for_element message carrying the description
and the locator count, `clickFailed` the click_with_strategies message,
`renewBare` the unreachable bare raise inside click_renew_button, and
`renewWrapped` the re-raise its `except` clause performs. -/
inductive ErrMsg where
  | notFound (description : String) (tried : Nat)
  | notClickable (description : String)
  | clickFailed (description : String)
  | renewBare
  | renewWrapped (inner : ErrMsg)
deriving DecidableEq, Repr

/-- Driver oracle: does the presence wait for `(by, value)` within the
given timeout produce an element (numbered), or time out? -/
def DriverFind := String → String → Int → Option Nat

/-- Python `timeout or self.timeout` (`None` and `0` are both falsy). -/
def waitTimeout (timeout : Option Int) (defaultTimeout : Int) : Int :=
  match timeout with
  | some t => if t == 0 then defaultTimeout else t
  | none => defaultTimeout

/-- The fallback loop of `wait_for_element`: try each fallback in declared
order with the same timeout, recording every attempt. -/
def tryFallbacks (find : DriverFind) (t : Int) :
    List LocatorBase → Option Nat × List BAction
  | [] => (none, [])
  | f :: rest =>
    match find f.by_ f.value t with
    | some e => (some e, [.locate f.by_ f.value t])
    | none =>
      match tryFallbacks find t rest with
      | (r, tr) => (r, .locate f.by_ f.value t :: tr)

/-- `BasePage.wait_for_element`: primary first, then the fallbacks in
order, each with the same timeout budget; if all fail, an ElementNotFound
error naming the description and the count of locators tried.  Returns the
result together with the trace of location attempts. -/
def wait_for_element (find : DriverFind) (defaultTimeout : Int) (loc : Locator)
    (timeout : Option Int) : Except ErrMsg Nat × List BAction :=
  match find loc.by_ loc.value (waitTimeout timeout defaultTimeout) with
  | some e => (.ok e, [.locate loc.by_ loc.value (waitTimeout timeout defaultTimeout)])
  | none =>
    match tryFallbacks find (waitTimeout timeout defaultTimeout) loc.fallbacks with
    | (some e, tr) =>
      (.ok e, .locate loc.by_ loc.value (waitTimeout timeout defaultTimeout) :: tr)
    | (none, tr) =>
      (.error (.notFound loc.description (1 + loc.fallbacks.length)),
       .locate loc.by_ loc.value (waitTimeout timeout defaultTimeout) :: tr)

/-- Outcomes of the driver actions of one `click_with_strategies` run, one
flag per action occurrence in program order (`true` = does not raise). -/
structure ClickEnv where
  find : DriverFind
  nativeClick1 : Bool
  jsClick2 : Bool
  scroll3 : Bool
  nativeClick3 : Bool
  scroll4 : Bool
  jsClick4 : Bool

/-- Strategy 4 of `click_with_strategies`: scroll into view, settle, then
the programmatic click; if it also raises, the ElementNotFound-style error
naming the locator is raised. -/
def clickStrategy4 (env : ClickEnv) (desc : String) (acc : List BAction) :
    Except ErrMsg Bool × List BAction :=
  let a := acc ++ [.scroll]
  if env.scroll4 then
    let a := a ++ [.sleep 1, .jsClick]
    if env.jsClick4 then (.ok true, a) else (.error (.clickFailed desc), a)
  else (.error (.clickFailed desc), a)

/-- `BasePage.click_with_strategies`: resolve the element once via the
presence wait, then native click, programmatic click, scroll + native
click, scroll + programmatic click, stopping at the first that does not
raise. -/
def click_with_strategies (env : ClickEnv) (defaultTimeout : Int) (loc : Locator) :
    Except ErrMsg Bool × List BAction :=
  match wait_for_element env.find defaultTimeout loc none with
  | (.error e, tr) => (.error e, tr)
  | (.ok _, tr) =>
    let a := tr ++ [.nativeClick]
    if env.nativeClick1 then (.ok true, a)
    else
      let a := a ++ [.jsClick]
      if env.jsClick2 then (.ok true, a)
      else
        let a := a ++ [.scroll]
        if env.scroll3 then
          let a := a ++ [.sleep 1, .nativeClick]
          if env.nativeClick3 then (.ok true, a)
          else clickStrategy4 env loc.description a
        else clickStrategy4 env loc.description a

/-- `DashboardPage.click_renew_button` (its fixed locator passed
explicitly): the `try` body branches on the returned flag, raising the
bare error on a falsy value, and the `except Exception` clause wraps any
raised error, the bare one included. -/
def click_renew_button (env : ClickEnv) (defaultTimeout : Int) (loc : Locator) :
    Except ErrMsg Unit × List BAction :=
  match click_with_strategies env defaultTimeout loc with
  | (.ok success, tr) =>
    if success then (.ok (), tr ++ [.sleep 3])
    else (.error (.renewWrapped .renewBare), tr)
  | (.error e, tr) => (.error (.renewWrapped e), tr)

theorem charVal_digitChar : ∀ v : Nat, v < 10 → charVal (digitChar v) = v := by decide

theorem isDigitCh_digitChar : ∀ v : Nat, v < 10 → isDigitCh (digitChar v) = true := by decide

theorem digitChar_beq_dash : ∀ v : Nat, v < 10 → (digitChar v == '-') = false := by decide

theorem isSpaceCh_digitChar : ∀ v : Nat, v < 10 → isSpaceCh (digitChar v) = false := by decide

theorem dropWhile_eq_self_of_all_false {p : Char → Bool} {l : List Char}
    (h : ∀ c ∈ l, p c = false) : l.dropWhile p = l := by
  cases l with
  | nil => rfl
  | cons a t => simp [List.dropWhile, h a (List.mem_cons_self a t)]

theorem stripChars_eq_self_of_no_space {l : List Char}
    (h : ∀ c ∈ l, isSpaceCh c = false) : stripChars l = l := by
  unfold stripChars
  rw [dropWhile_eq_self_of_all_false h,
      dropWhile_eq_self_of_all_false (fun c hc => h c (List.mem_reverse.mp hc)),
      List.reverse_reverse]

theorem no_space_formatDate (d : Date) : ∀ c ∈ formatDate d, isSpaceCh c = false := by
  intro c hc
  simp [formatDate, format4, format2] at hc
  rcases hc with h | h | h | h | h | h | h | h | h | h <;> subst h <;>
    first
      | exact isSpaceCh_digitChar _ (Nat.mod_lt _ (by decide))
      | decide

theorem stripChars_formatDate (d : Date) : stripChars (formatDate d) = formatDate d :=
  stripChars_eq_self_of_no_space (no_space_formatDate d)

theorem parseFixed_format4 (y : Nat) (h : y < 10000) :
    parseFixed 4 4 (format4 y) = some y := by
  have b1 : y / 1000 % 10 < 10 := Nat.mod_lt _ (by decide)
  have b2 : y / 100 % 10 < 10 := Nat.mod_lt _ (by decide)
  have b3 : y / 10 % 10 < 10 := Nat.mod_lt _ (by decide)
  have b4 : y % 10 < 10 := Nat.mod_lt _ (by decide)
  simp [parseFixed, format4, parseNatCore,
        isDigitCh_digitChar _ b1, isDigitCh_digitChar _ b2,
        isDigitCh_digitChar _ b3, isDigitCh_digitChar _ b4,
        charVal_digitChar _ b1, charVal_digitChar _ b2,
        charVal_digitChar _ b3, charVal_digitChar _ b4]
  omega

theorem parseFixed_format2 (lo m : Nat) (hlo : lo ≤ 2) (h : m < 100) :
    parseFixed lo 2 (format2 m) = some m := by
  have b1 : m / 10 % 10 < 10 := Nat.mod_lt _ (by decide)
  have b2 : m % 10 < 10 := Nat.mod_lt _ (by decide)
  simp [parseFixed, format2,
        isDigitCh_digitChar _ b1, isDigitCh_digitChar _ b2, hlo, parseNatCore,
        charVal_digitChar _ b1, charVal_digitChar _ b2]
  omega

theorem splitOnCh_formatDate (d : Date) :
    splitOnCh '-' (formatDate d) = [format4 d.year, format2 d.month, format2 d.day] := by
  simp [formatDate, format4, format2, splitOnCh,
        digitChar_beq_dash _ (Nat.mod_lt _ (by decide) : d.year / 1000 % 10 < 10),
        digitChar_beq_dash _ (Nat.mod_lt _ (by decide) : d.year / 100 % 10 < 10),
        digitChar_beq_dash _ (Nat.mod_lt _ (by decide) : d.year / 10 % 10 < 10),
        digitChar_beq_dash _ (Nat.mod_lt _ (by decide) : d.year % 10 < 10),
        digitChar_beq_dash _ (Nat.mod_lt _ (by decide) : d.month / 10 % 10 < 10),
        digitChar_beq_dash _ (Nat.mod_lt _ (by decide) : d.month % 10 < 10),
        digitChar_beq_dash _ (Nat.mod_lt _ (by decide) : d.day / 10 % 10 < 10),
        digitChar_beq_dash _ (Nat.mod_lt _ (by decide) : d.day % 10 < 10)]

theorem daysInMonth_le_31 (y m : Nat) : daysInMonth y m ≤ 31 := by
  unfold daysInMonth
  split
  · split <;> decide
  · split <;> decide

theorem parseDate_formatDate (d : Date)
    (h : validYMD d.year d.month d.day = true) :
    parseDate (formatDate d) = some d := by
  have hb : 1 ≤ d.year ∧ d.year ≤ 9999 ∧ 1 ≤ d.month ∧ d.month ≤ 12 ∧
      1 ≤ d.day ∧ d.day ≤ daysInMonth d.year d.month := by
    simpa [validYMD] using h
  have hy : d.year < 10000 := by omega
  have hm : d.month < 100 := by omega
  have hd : d.day < 100 := by
    have := daysInMonth_le_31 d.year d.month
    omega
  unfold parseDate
  rw [splitOnCh_formatDate]
  simp only [parseFixed_format4 _ hy, parseFixed_format2 1 d.month (by decide) hm,
             parseFixed_format2 1 d.day (by decide) hd]
  simp [mkDate, h]

theorem formatDate_not_empty (d : Date) : (formatDate d).isEmpty = false := by
  simp [formatDate, format4]

theorem read_cached_date_formatDate (d : Date)
    (h : validYMD d.year d.month d.day = true) :
    read_cached_date (some (formatDate d)) = (some d, some (formatDate d)) := by
  simp [read_cached_date, stripChars_formatDate, formatDate_not_empty,
        parseDate_formatDate d h]

/-- C4: `is_within_range` returns true iff a cached date exists and
`abs(current − cached) ≤ range_days`; in particular it is symmetric in the
two dates, and absence of a cached date yields false. -/
theorem C4_is_within_range (d1 d2 : Date) (r : Int)
    (h1 : validYMD d1.year d1.month d1.day = true)
    (h2 : validYMD d2.year d2.month d2.day = true) :
    (∀ s : Option (List Char), is_within_range s d1 r = true ↔
        ∃ cd, (read_cached_date s).1 = some cd ∧ |dateDiff d1 cd| ≤ r)
    ∧ is_within_range (some (formatDate d2)) d1 r = decide (|dateDiff d1 d2| ≤ r)
    ∧ is_within_range (some (formatDate d2)) d1 r
        = is_within_range (some (formatDate d1)) d2 r
    ∧ is_within_range none d1 r = false := by
  refine ⟨?_, ?_, ?_, rfl⟩
  · intro s
    unfold is_within_range
    cases hr : (read_cached_date s).1 with
    | none => simp [hr]
    | some cd => simp [hr]
  · unfold is_within_range
    rw [read_cached_date_formatDate d2 h2]
  · unfold is_within_range
    rw [read_cached_date_formatDate d2 h2, read_cached_date_formatDate d1 h1]
    simp only [dateDiff]
    congr 1
    rw [abs_sub_comm]

/-- C4 witness: the characterization applied at concrete dates. -/
theorem C4_witness :
    is_within_range (some (formatDate ⟨2025, 1, 5⟩)) ⟨2025, 1, 10⟩ 7
      = decide (|dateDiff ⟨2025, 1, 10⟩ ⟨2025, 1, 5⟩| ≤ 7) :=
  (C4_is_within_range ⟨2025, 1, 10⟩ ⟨2025, 1, 5⟩ 7 (by decide) (by decide)).2.1

/-- C5: `should_skip_renewal` is false when no cache file exists, and
otherwise returns exactly `is_within_range`; the last conjunct exhibits
`is_within_range`'s own no-cached-date default. -/
theorem C5_should_skip (c : List Char) (d : Date) (r : Int) :
    should_skip_renewal none d r = false
    ∧ should_skip_renewal (some c) d r = is_within_range (some c) d r
    ∧ is_within_range none d r = false :=
  ⟨rfl, rfl, rfl⟩

/-- C7 counterexample: the stored text `" "` fails to parse as a date, yet
`read_cached_date` returns absence with the record left in place, not
deleted — refuting the claim that every parse failure deletes the record. -/
theorem C7_counterexample :
    parseDate [' '] = none ∧ parseDate (stripChars [' ']) = none
    ∧ read_cached_date (some [' ']) = (none, some [' ']) := by decide

/-- C7 (amended): `read_cached_date` returns the stored date, or absence if
no file exists; stored text that is nonempty after stripping and fails to
parse causes the record to be deleted and absence returned; content that is
empty after stripping yields absence without deletion; no parse error
propagates (the reader is a total function into options). -/
theorem C7_read_cached_date (content : List Char) :
    read_cached_date none = (none, none)
    ∧ (stripChars content = [] →
        read_cached_date (some content) = (none, some content))
    ∧ (stripChars content ≠ [] → parseDate (stripChars content) = none →
        read_cached_date (some content) = (none, none))
    ∧ (∀ dt, parseDate (stripChars content) = some dt →
        read_cached_date (some content) = (some dt, some content)) := by
  refine ⟨rfl, ?_, ?_, ?_⟩
  · intro h
    simp [read_cached_date, h]
  · intro h hp
    simp [read_cached_date, h, hp]
  · intro dt hp
    have hne : stripChars content ≠ [] := by
      intro he
      rw [he] at hp
      simp [parseDate, splitOnCh] at hp
    simp [read_cached_date, hne, hp]

/-- C7 witness: unparsable nonempty text is deleted and read as absence. -/
theorem C7_witness : read_cached_date (some ("bad".toList)) = (none, none) :=
  (C7_read_cached_date ("bad".toList)).2.2.1 (by decide) (by decide)

/-- C8: a successful `write_cached_date` followed by `read_cached_date`
returns exactly the written date (round-trip through the single-line
`YYYY-MM-DD` storage format). -/
theorem C8_write_read_roundtrip (prev s' : Option (List Char)) (ioOk : Bool) (d : Date)
    (hv : validYMD d.year d.month d.day = true)
    (hw : write_cached_date prev ioOk d = (true, s')) :
    (read_cached_date s').1 = some d := by
  unfold write_cached_date at hw
  cases ioOk with
  | false => simp at hw
  | true =>
    simp only [if_pos] at hw
    have hs : s' = some (formatDate d) := by
      cases hw
      rfl
    rw [hs, read_cached_date_formatDate d hv]

/-- C8 witness: the round-trip at a concrete date. -/
theorem C8_witness :
    (read_cached_date (some (formatDate ⟨2025, 1, 10⟩))).1 = some ⟨2025, 1, 10⟩ :=
  C8_write_read_roundtrip none _ true ⟨2025, 1, 10⟩ (by decide) rfl

/-- C6: `read_execution_status` treats malformed content as absence with
asymmetric self-healing: an unparsable timestamp deletes the status file
(post state `none`), while a wrong line count, empty fields, or an
unrecognized status token return absence with the file left in place. -/
theorem C6_read_execution_status (content l0 l1 : List Char) :
    ((splitOnCh '\n' (stripChars content)).length ≠ 2 →
      read_execution_status (some content) = (none, some content))
    ∧ (splitOnCh '\n' (stripChars content) = [l0, l1] →
        ((stripChars l0).isEmpty || (stripChars l1).isEmpty) = true →
        read_execution_status (some content) = (none, some content))
    ∧ (splitOnCh '\n' (stripChars content) = [l0, l1] →
        ((stripChars l0).isEmpty || (stripChars l1).isEmpty) = false →
        parseDateTime (stripChars l0) = none →
        read_execution_status (some content) = (none, none))
    ∧ (∀ ts, splitOnCh '\n' (stripChars content) = [l0, l1] →
        ((stripChars l0).isEmpty || (stripChars l1).isEmpty) = false →
        parseDateTime (stripChars l0) = some ts →
        validStatuses.contains (stripChars l1) = false →
        read_execution_status (some content) = (none, some content)) := by
  refine ⟨?_, ?_, ?_, ?_⟩
  · intro h
    rcases hsp : splitOnCh '\n' (stripChars content) with _ | ⟨a, _ | ⟨b, _ | ⟨c, t⟩⟩⟩
    · simp [read_execution_status, hsp]
    · simp [read_execution_status, hsp]
    · rw [hsp] at h
      simp at h
    · simp [read_execution_status, hsp]
  · intro hsp he
    simp [read_execution_status, hsp, he]
  · intro hsp he hp
    simp [read_execution_status, hsp, he, hp]
  · intro ts hsp he hp hc
    have hc' : stripChars l1 ∉ validStatuses := by simpa using hc
    simp [read_execution_status, hsp, he, hp, hc']

/-- C6 witness: an unparsable timestamp with a valid status token deletes
the file; an unrecognized status token with a valid timestamp does not. -/
theorem C6_witness :
    read_execution_status (some ("notadate\nsuccess".toList)) = (none, none)
    ∧ read_execution_status (some ("2025-01-10T08:30:05\nwhat".toList))
        = (none, some ("2025-01-10T08:30:05\nwhat".toList)) :=
  ⟨(C6_read_execution_status ("notadate\nsuccess".toList)
      ("notadate".toList) ("success".toList)).2.2.1 (by decide) (by decide) (by decide),
   (C6_read_execution_status ("2025-01-10T08:30:05\nwhat".toList)
      ("2025-01-10T08:30:05".toList) ("what".toList)).2.2.2
      ⟨⟨2025, 1, 10⟩, 8, 30, 5, 0⟩ (by decide) (by decide) (by decide) (by decide)⟩

theorem read_exec_status_mem {s : Option (List Char)} {ts : DateTime}
    {st : List Char} {s' : Option (List Char)}
    (h : read_execution_status s = (some (ts, st), s')) :
    st ∈ validStatuses := by
  cases s with
  | none => simp [read_execution_status] at h
  | some content =>
    simp only [read_execution_status] at h
    rcases hsp : splitOnCh '\n' (stripChars content) with _ | ⟨a, _ | ⟨b, _ | ⟨c, t⟩⟩⟩ <;>
      simp only [hsp] at h
    · simp at h
    · simp at h
    · cases he : ((stripChars a).isEmpty || (stripChars b).isEmpty) with
      | true => rw [he] at h; simp at h
      | false =>
        rw [he] at h
        cases hp : parseDateTime (stripChars a) with
        | none => rw [hp] at h; simp at h
        | some ts' =>
          rw [hp] at h
          cases hc : validStatuses.contains (stripChars b) with
          | false => rw [hc] at h; simp at h
          | true =>
            rw [hc] at h
            simp at h
            rw [← h.1.2]
            simpa using hc
    · simp at h

/-- C9: whenever `read_execution_status` returns a record, the status is
one of the four valid tokens; consequently the fail-open default branch of
`should_retry_renewal` is unreachable: replacing its result by `false`
(`should_retry_renewal_strict`) never changes the function. -/
theorem C9_status_validated (s : Option (List Char)) (today due : Date) (db : Int) :
    (∀ ts st s', read_execution_status s = (some (ts, st), s') → st ∈ validStatuses)
    ∧ should_retry_renewal s today due db = should_retry_renewal_strict s today due db := by
  constructor
  · intro ts st s' h
    exact read_exec_status_mem h
  · unfold should_retry_renewal should_retry_renewal_strict
    cases hw : decide (0 ≤ dateDiff due today ∧ dateDiff due today ≤ db) with
    | false =>
      have : ¬ (0 ≤ dateDiff due today ∧ dateDiff due today ≤ db) := of_decide_eq_false hw
      simp [this]
    | true =>
      have hin : 0 ≤ dateDiff due today ∧ dateDiff due today ≤ db := of_decide_eq_true hw
      simp only [hin, not_true_eq_false, if_false]
      cases hr : (read_execution_status s).1 with
      | none => rfl
      | some p =>
        obtain ⟨ts, st⟩ := p
        have hmem : st ∈ validStatuses := by
          refine @read_exec_status_mem s ts st (read_execution_status s).2 ?_
          rw [← hr]
        simp only [validStatuses, List.mem_cons, List.mem_singleton] at hmem
        rcases hmem with h' | h' | h' | h'
        · subst h'
          simp [statusDecision, statusDecisionStrict]
        · subst h'
          simp [statusDecision, statusDecisionStrict]
        · subst h'
          simp [statusDecision, statusDecisionStrict]
        · rcases h' with h' | h'
          · subst h'
            simp [statusDecision, statusDecisionStrict]
          · simp at h'

/-- C9 witness: the validation conclusion at a concrete well-formed record. -/
theorem C9_witness : sSuccess ∈ validStatuses :=
  (C9_status_validated (some ("2025-01-10T08:30:05\nsuccess".toList))
      ⟨2025, 1, 10⟩ ⟨2025, 1, 10⟩ 0).1
    ⟨⟨2025, 1, 10⟩, 8, 30, 5, 0⟩ sSuccess
    (some ("2025-01-10T08:30:05\nsuccess".toList)) (by decide)

/-- C1: `should_retry_renewal` follows the spec's truth table: outside the
`[0, days_before]` days-until-due window it returns true; inside the
window it returns true when no record exists, true when the record's date
differs from today, false for a same-day success, true for a same-day
failed, not_due or skipped record, and (at the post-read decision, the
only place another status could appear) true for any other status value. -/
theorem C1_should_retry_truth_table (s : Option (List Char)) (today due : Date)
    (db : Int) (_hdb : 0 ≤ db) :
    (¬ (0 ≤ dateDiff due today ∧ dateDiff due today ≤ db) →
        should_retry_renewal s today due db = true)
    ∧ ((0 ≤ dateDiff due today ∧ dateDiff due today ≤ db) →
        ((read_execution_status s).1 = none →
            should_retry_renewal s today due db = true)
        ∧ (∀ ts st, (read_execution_status s).1 = some (ts, st) →
            (ts.date ≠ today → should_retry_renewal s today due db = true)
            ∧ (ts.date = today → st = sSuccess →
                should_retry_renewal s today due db = false)
            ∧ (ts.date = today → (st = sFailed ∨ st = sNotDue ∨ st = sSkipped) →
                should_retry_renewal s today due db = true)))
    ∧ (∀ ts st, ts.date = today → st ∉ validStatuses →
        statusDecision today ts st = true) := by
  refine ⟨?_, ?_, ?_⟩
  · intro h
    simp [should_retry_renewal, h]
  · intro h
    constructor
    · intro hr
      simp [should_retry_renewal, h, hr]
    · intro ts st hr
      refine ⟨?_, ?_, ?_⟩
      · intro hne
        simp [should_retry_renewal, h, hr, statusDecision, hne]
      · intro heq hst
        subst hst
        simp [should_retry_renewal, h, hr, statusDecision, heq]
      · intro heq hst
        rcases hst with h' | h' | h' <;> subst h' <;>
          simp [should_retry_renewal, h, hr, statusDecision, heq] <;> decide
  · intro ts st heq hnm
    have h1 : ¬ st = sSuccess := fun he => hnm (by rw [he]; decide)
    have h2 : ¬ st = sFailed := fun he => hnm (by rw [he]; decide)
    have h3 : ¬ st = sNotDue := fun he => hnm (by rw [he]; decide)
    have h4 : ¬ st = sSkipped := fun he => hnm (by rw [he]; decide)
    simp [statusDecision, heq, h1, h2, h3, h4]

/-- C1 witness: the truth table applied inside the window to a same-day
success record, yielding false. -/
theorem C1_witness :
    should_retry_renewal (some ("2025-01-10T08:30:05\nsuccess".toList))
      ⟨2025, 1, 10⟩ ⟨2025, 1, 12⟩ 3 = false :=
  ((((C1_should_retry_truth_table (some ("2025-01-10T08:30:05\nsuccess".toList))
      ⟨2025, 1, 10⟩ ⟨2025, 1, 12⟩ 3 (by decide)).2.1 (by decide)).2
      ⟨⟨2025, 1, 10⟩, 8, 30, 5, 0⟩ sSuccess (by decide)).2.1) rfl rfl

theorem tryFallbacks_all_none (find : DriverFind) (t : Int) (fbs : List LocatorBase)
    (h : ∀ fb ∈ fbs, find fb.by_ fb.value t = none) :
    tryFallbacks find t fbs =
      (none, fbs.map (fun fb => .locate fb.by_ fb.value t)) := by
  induction fbs with
  | nil => rfl
  | cons f rest ih =>
    simp only [tryFallbacks, h f (List.mem_cons_self f rest),
               ih (fun fb hm => h fb (List.mem_cons_of_mem f hm)), List.map_cons]

/-- C2: `wait_for_element` tries the primary locator first and then each
fallback in declared order, each with the same timeout budget; immediate
success attempts one locator, a failing primary with a working first
fallback resolves via the fallback with exactly two attempts, and when
every locator fails it raises ElementNotFound naming the description and
`1 + number of fallbacks` strategies. -/
theorem C2_wait_for_element (find : DriverFind) (dflt : Int) (loc : Locator)
    (timeout : Option Int) :
    (∀ e, find loc.by_ loc.value (waitTimeout timeout dflt) = some e →
        wait_for_element find dflt loc timeout =
          (.ok e, [.locate loc.by_ loc.value (waitTimeout timeout dflt)]))
    ∧ (∀ fb rest e, loc.fallbacks = fb :: rest →
        find loc.by_ loc.value (waitTimeout timeout dflt) = none →
        find fb.by_ fb.value (waitTimeout timeout dflt) = some e →
        wait_for_element find dflt loc timeout =
          (.ok e, [.locate loc.by_ loc.value (waitTimeout timeout dflt),
                   .locate fb.by_ fb.value (waitTimeout timeout dflt)]))
    ∧ (find loc.by_ loc.value (waitTimeout timeout dflt) = none →
        (∀ fb ∈ loc.fallbacks,
            find fb.by_ fb.value (waitTimeout timeout dflt) = none) →
        wait_for_element find dflt loc timeout =
          (.error (.notFound loc.description (1 + loc.fallbacks.length)),
           .locate loc.by_ loc.value (waitTimeout timeout dflt) ::
             loc.fallbacks.map
               (fun fb => .locate fb.by_ fb.value (waitTimeout timeout dflt)))) := by
  refine ⟨?_, ?_, ?_⟩
  · intro e hp
    simp [wait_for_element, hp]
  · intro fb rest e hfb hp hf
    simp [wait_for_element, hp, hfb, tryFallbacks, hf]
  · intro hp hall
    simp [wait_for_element, hp,
          tryFallbacks_all_none find (waitTimeout timeout dflt) loc.fallbacks hall]

/-- C2 witness: failing primary, working first fallback, two attempts. -/
theorem C2_witness :
    wait_for_element (fun b _ _ => if b == "css" then some 7 else none) 30
      ⟨"xpath", "//a", "renew", [⟨"css", "a.renew", "renew css"⟩]⟩ none
      = (.ok 7, [.locate "xpath" "//a" 30, .locate "css" "a.renew" 30]) :=
  (C2_wait_for_element (fun b _ _ => if b == "css" then some 7 else none) 30
      ⟨"xpath", "//a", "renew", [⟨"css", "a.renew", "renew css"⟩]⟩ none).2.1
    ⟨"css", "a.renew", "renew css"⟩ [] 7 rfl rfl rfl

/-- C3: `click_with_strategies` resolves the element once via the presence
wait (propagating its error), then attempts native click, programmatic
click, scroll + native click with settle delay, scroll + programmatic
click, in that order; the first that does not raise wins and no later
strategy (no scroll, in the script-click case) is attempted; if all four
raise, an ElementNotFound-style error identifies the locator. -/
theorem C3_click_strategies (env : ClickEnv) (dflt : Int) (loc : Locator) :
    (∀ e tr, wait_for_element env.find dflt loc none = (.error e, tr) →
        click_with_strategies env dflt loc = (.error e, tr))
    ∧ (∀ el tr, wait_for_element env.find dflt loc none = (.ok el, tr) →
        (env.nativeClick1 = true →
            click_with_strategies env dflt loc = (.ok true, tr ++ [.nativeClick]))
        ∧ (env.nativeClick1 = false → env.jsClick2 = true →
            click_with_strategies env dflt loc =
              (.ok true, tr ++ [.nativeClick, .jsClick]))
        ∧ (env.nativeClick1 = false → env.jsClick2 = false → env.scroll3 = true →
            env.nativeClick3 = true →
            click_with_strategies env dflt loc =
              (.ok true, tr ++ [.nativeClick, .jsClick, .scroll, .sleep 1, .nativeClick]))
        ∧ (env.nativeClick1 = false → env.jsClick2 = false →
            (env.scroll3 = true → env.nativeClick3 = false) →
            env.scroll4 = true → env.jsClick4 = true →
            (click_with_strategies env dflt loc).1 = .ok true)
        ∧ (env.nativeClick1 = false → env.jsClick2 = false →
            (env.scroll3 = true → env.nativeClick3 = false) →
            (env.scroll4 = true → env.jsClick4 = false) →
            (click_with_strategies env dflt loc).1 =
              .error (.clickFailed loc.description))) := by
  constructor
  · intro e tr hw
    simp [click_with_strategies, hw]
  · intro el tr hw
    refine ⟨?_, ?_, ?_, ?_, ?_⟩
    · intro h1
      simp [click_with_strategies, hw, h1]
    · intro h1 h2
      simp [click_with_strategies, hw, h1, h2]
    · intro h1 h2 h3 h4
      simp [click_with_strategies, hw, h1, h2, h3, h4]
    · intro h1 h2 h3 h4 h5
      cases hs3 : env.scroll3 with
      | true =>
        simp [click_with_strategies, hw, h1, h2, hs3, h3 hs3, clickStrategy4, h4, h5]
      | false =>
        simp [click_with_strategies, hw, h1, h2, hs3, clickStrategy4, h4, h5]
    · intro h1 h2 h3 h4
      cases hs3 : env.scroll3 with
      | true =>
        cases hs4 : env.scroll4 with
        | true =>
          simp [click_with_strategies, hw, h1, h2, hs3, h3 hs3, clickStrategy4,
                hs4, h4 hs4]
        | false =>
          simp [click_with_strategies, hw, h1, h2, hs3, h3 hs3, clickStrategy4, hs4]
      | false =>
        cases hs4 : env.scroll4 with
        | true =>
          simp [click_with_strategies, hw, h1, h2, hs3, clickStrategy4, hs4, h4 hs4]
        | false =>
          simp [click_with_strategies, hw, h1, h2, hs3, clickStrategy4, hs4]

/-- C3 witness: native click raises, script click succeeds — the run ends
at the script strategy, with no scroll attempted. -/
theorem C3_witness :
    click_with_strategies ⟨fun _ _ _ => some 1, false, true, true, true, true, true⟩ 30
      ⟨"id", "renew", "renew button", []⟩
      = (.ok true, [.locate "id" "renew" 30, .nativeClick, .jsClick]) :=
  ((C3_click_strategies ⟨fun _ _ _ => some 1, false, true, true, true, true, true⟩ 30
      ⟨"id", "renew", "renew button", []⟩).2 1 [.locate "id" "renew" 30] rfl).2.1
    rfl rfl

theorem wait_error_shape (find : DriverFind) (dflt : Int) (loc : Locator)
    (timeout : Option Int) (e : ErrMsg) (tr : List BAction)
    (h : wait_for_element find dflt loc timeout = (.error e, tr)) :
    e = .notFound loc.description (1 + loc.fallbacks.length) := by
  unfold wait_for_element at h
  cases hp : find loc.by_ loc.value (waitTimeout timeout dflt) with
  | some e' =>
    rw [hp] at h
    simp at h
  | none =>
    rw [hp] at h
    cases htf : tryFallbacks find (waitTimeout timeout dflt) loc.fallbacks with
    | mk r tr' =>
      rw [htf] at h
      cases r with
      | some e' => simp at h
      | none =>
        simp at h
        exact h.1.symm

theorem click_result_cases (env : ClickEnv) (dflt : Int) (loc : Locator) :
    (click_with_strategies env dflt loc).1 = .ok true
    ∨ (click_with_strategies env dflt loc).1 = .error (.clickFailed loc.description)
    ∨ (click_with_strategies env dflt loc).1 =
        .error (.notFound loc.description (1 + loc.fallbacks.length)) := by
  unfold click_with_strategies
  cases hw : wait_for_element env.find dflt loc none with
  | mk r tr =>
    cases r with
    | error e =>
      right; right
      simp [wait_error_shape env.find dflt loc none e tr hw]
    | ok el =>
      simp only []
      cases h1 : env.nativeClick1 with
      | true => simp
      | false =>
        cases h2 : env.jsClick2 with
        | true => simp
        | false =>
          cases h3 : env.scroll3 with
          | true =>
            cases h4 : env.nativeClick3 with
            | true => simp
            | false =>
              unfold clickStrategy4
              cases h5 : env.scroll4 with
              | true =>
                cases h6 : env.jsClick4 with
                | true => simp
                | false => simp
              | false => simp
          | false =>
            unfold clickStrategy4
            cases h5 : env.scroll4 with
            | true =>
              cases h6 : env.jsClick4 with
              | true => simp
              | false => simp
            | false => simp

/-- C10: `click_with_strategies` never returns `False` — every run either
returns `True` or raises — so the falsy-return branch of
`click_renew_button` (the bare raise, modelled by the `renewBare` marker)
is unreachable. -/
theorem C10_never_false (env : ClickEnv) (dflt : Int) (loc : Locator) :
    (click_with_strategies env dflt loc).1 ≠ .ok false
    ∧ (click_renew_button env dflt loc).1 ≠ .error (.renewWrapped .renewBare) := by
  have hcases := click_result_cases env dflt loc
  constructor
  · rcases hcases with h | h | h <;> simp [h]
  · unfold click_renew_button
    cases hc : click_with_strategies env dflt loc with
    | mk r tr =>
      rcases hcases with h | h | h <;> rw [hc] at h <;> simp at h <;> subst h <;> simp

/-- C10 witness: the theorem at a concrete environment and locator. -/
theorem C10_witness :
    (click_with_strategies ⟨fun _ _ _ => some 1, false, false, false, false, false, false⟩
        30 ⟨"id", "renew", "renew button", []⟩).1 ≠ .ok false :=
  (C10_never_false ⟨fun _ _ _ => some 1, false, false, false, false, false, false⟩ 30
      ⟨"id", "renew", "renew button", []⟩).1

example : parseDate ("2025-1-9".toList) = some ⟨2025, 1, 9⟩ := by decide
example : parseDate ("2025-13-01".toList) = none := by decide
example : parseDate ("garbage".toList) = none := by decide
example : read_cached_date (some ("2025-01-10\n".toList))
    = (some ⟨2025, 1, 10⟩, some ("2025-01-10\n".toList)) := by decide
example : read_cached_date (some ("bad".toList)) = (none, none) := by decide
example : dateDiff ⟨2025, 3, 1⟩ ⟨2025, 2, 28⟩ = 1 := by decide
example : dateDiff ⟨2024, 3, 1⟩ ⟨2024, 2, 28⟩ = 2 := by decide
example : parseDateTime ("2025-01-10T08:30:05".toList)
    = some ⟨⟨2025, 1, 10⟩, 8, 30, 5, 0⟩ := by decide
example : parseDateTime ("2025-01-10".toList) = some ⟨⟨2025, 1, 10⟩, 0, 0, 0, 0⟩ := by decide
example : parseDateTime ("2025-01-10 08:30:05.25".toList)
    = some ⟨⟨2025, 1, 10⟩, 8, 30, 5, 250000⟩ := by decide
example : parseDateTime ("garbage".toList) = none := by decide
example : read_execution_status (some ("2025-01-10T08:30:05\nsuccess".toList))
    = (some (⟨⟨2025, 1, 10⟩, 8, 30, 5, 0⟩, sSuccess),
       some ("2025-01-10T08:30:05\nsuccess".toList)) := by decide
example : read_execution_status (some ("garbage\nsuccess".toList)) = (none, none) := by decide
example : read_execution_status (some ("2025-01-10T08:30:05\nwhat".toList))
    = (none, some ("2025-01-10T08:30:05\nwhat".toList)) := by decide
example : read_execution_status (some ("oneline".toList))
    = (none, some ("oneline".toList)) := by decide
example : should_retry_renewal (some ("2025-01-10T08:30:05\nsuccess".toList))
    ⟨2025, 1, 10⟩ ⟨2025, 1, 12⟩ 3 = false := by decide
example : should_retry_renewal (some ("2025-01-10T08:30:05\nsuccess".toList))
    ⟨2025, 1, 11⟩ ⟨2025, 1, 12⟩ 3 = true := by decide
example : should_retry_renewal (some ("2025-01-10T08:30:05\nfailed".toList))
    ⟨2025, 1, 10⟩ ⟨2025, 1, 12⟩ 3 = true := by decide
example : should_retry_renewal none ⟨2025, 1, 10⟩ ⟨2025, 1, 12⟩ 3 = true := by decide
example : should_retry_renewal (some ("2025-01-10T08:30:05\nsuccess".toList))
    ⟨2025, 1, 10⟩ ⟨2025, 2, 12⟩ 3 = true := by decide
